import Mathlib

/-!
Verification of the lead-processing agents repository.

This file gives a shallow embedding, in Lean 4, of the two pure flows of the
repository and proves the specified properties about them:

* the lead-qualification scorer and decision procedure
  (qualification-agent-python/qualification_agent.py: the tools
  enrich_lead, calculate_qualification_score, make_qualification_decision);
* the lead-capture normalization flow and the model-backed extraction
  adapter retry logic (leadcaptureagent/app/agents/lead_capture.py and
  leadcaptureagent/app/llm.py).

Python strings are modelled as Lean String or List Char; Python ints as Int
(Python integers are unbounded, so no overflow modelling is needed); absent
optional dictionary keys as Option.none.  External collaborators (the LLM
network call, the system clock, uuid generation) are modelled as explicit
parameters or omitted fields, as noted at each definition.
-/

namespace LeadAgents

/-- Python single-character `str.split`: splits a character list at every
occurrence of the separator.  `"a@b@c".split("@") == ["a", "b", "c"]`,
`"".split("@") == [""]`, `"@".split("@") == ["", ""]`. -/
def splitChar (sep : Char) : List Char → List (List Char)
  | [] => [[]]
  | c :: cs =>
    if c = sep then [] :: splitChar sep cs
    else
      match splitChar sep cs with
      | [] => [[c]]
      | p :: ps => (c :: p) :: ps

theorem splitChar_no_sep (sep : Char) (l : List Char) (h : sep ∉ l) :
    splitChar sep l = [l] := by
  induction l with
  | nil => rfl
  | cons c cs ih =>
    simp only [List.mem_cons, not_or] at h
    simp only [splitChar]
    rw [if_neg (fun hc => h.1 hc.symm), ih h.2]

theorem splitChar_append (sep : Char) (l r : List Char) (h : sep ∉ l) :
    splitChar sep (l ++ sep :: r) = l :: splitChar sep r := by
  induction l with
  | nil => simp [splitChar]
  | cons c cs ih =>
    simp only [List.mem_cons, not_or] at h
    simp only [List.cons_append, splitChar]
    rw [if_neg (fun hc => h.1 hc.symm)]
    simp only [List.append_eq]
    rw [ih h.2]

/-- Python `str.title`, restricted to ASCII case mapping: an alphabetic
character that follows a non-alphabetic one (or starts the string) is
uppercased, an alphabetic character following an alphabetic one is
lowercased, every other character is kept. -/
def titleAux : Bool → List Char → List Char
  | _, [] => []
  | prevAlpha, c :: cs =>
    if c.isAlpha then
      (if prevAlpha then c.toLower else c.toUpper) :: titleAux true cs
    else c :: titleAux false cs

def titleCase (l : List Char) : List Char := titleAux false l

/-! ## Enrichment tool (qualification_agent.py, enrich_lead) -/

structure CompanyInfo where
  name : String
  industry : String
  size : String
  deriving DecidableEq, Repr

structure CreditIndicators where
  has_stable_employment : Bool
  likely_homeowner : Bool
  deriving DecidableEq, Repr

structure Enrichment where
  email : List Char
  is_corporate_email : Bool
  estimated_income : String
  credit_indicators : CreditIndicators
  company_info : Option CompanyInfo
  linkedin_profile : Option (List Char)
  deriving DecidableEq, Repr

/-- The fixed consumer-webmail exclusion list of enrich_lead
(`domain not in [gmail.com, yahoo.com, hotmail.com, outlook.com]`). -/
def consumerDomains : List (List Char) :=
  ["gmail.com".toList, "yahoo.com".toList, "hotmail.com".toList, "outlook.com".toList]

/-- `domain.split(".")[0]` of enrich_lead (the split of a Python string is
never empty, so index 0 always exists). -/
def firstLabel (domain : List Char) : List Char :=
  (splitChar '.' domain).headD []

/-- The synthetic company block enrich_lead attaches to a corporate domain:
first dot-separated label title-cased, fixed industry and size. -/
def companyInfoOf (domain : List Char) : CompanyInfo :=
  { name := String.mk (titleCase (firstLabel domain))
    industry := "Technology"
    size := "100-500" }

/-- Embedding of the enrich_lead tool.  `email.split("@")[1]` raises
IndexError in Python when the email has no `@`; that exception is modelled
as `none`.  The unused optional `phone` parameter of the source is omitted. -/
def enrich_lead (email : List Char) : Option Enrichment :=
  match splitChar '@' email with
  | localPart :: domain :: _ =>
    let is_corporate : Bool := decide (domain ∉ consumerDomains)
    some
      { email := email
        is_corporate_email := is_corporate
        estimated_income :=
          if is_corporate then "$75,000-$125,000" else "$50,000-$100,000"
        credit_indicators :=
          { has_stable_employment := is_corporate, likely_homeowner := false }
        company_info :=
          if is_corporate then some (companyInfoOf domain) else none
        linkedin_profile :=
          if is_corporate then
            some ("https://linkedin.com/in/".toList ++ localPart)
          else none }
  | _ => none

/-! ## Scoring tool (qualification_agent.py, calculate_qualification_score) -/

/-- A Python value stored under the `budget` key: the source handles both
string budgets such as `"$250,000"` and numeric budgets. -/
inductive BudgetVal where
  | str (s : String)
  | num (n : Int)
  deriving DecidableEq, Repr

/-- The keys of the `lead_data` dictionary that the scorer reads; `none`
models an absent key (so `dict.get` returns its default). -/
structure LeadData where
  budget : Option BudgetVal
  source : Option String
  years_in_city : Option Int
  phone : Option String
  deriving DecidableEq, Repr

/-- Python truthiness of `lead_data.get("budget")`: an absent key, the empty
string and the number 0 are falsy. -/
def budgetTruthy : Option BudgetVal → Bool
  | none => false
  | some (.str s) => !(s == "")
  | some (.num n) => !(n == 0)

/-- Python truthiness of `lead_data.get("phone")`. -/
def phoneTruthy : Option String → Bool
  | none => false
  | some s => !(s == "")

/-- `int("".join(ds))` on a list of ASCII digit characters: `none` models the
ValueError raised on the empty string. -/
def digitsToNat (ds : List Char) : Option Nat :=
  match ds with
  | [] => none
  | _ => some (ds.foldl (fun acc c => acc * 10 + (c.toNat - '0'.toNat)) 0)

/-- The budget tier bonus ladder of calculate_qualification_score. -/
def tierBonus (budget_num : Int) : Int :=
  if budget_num ≥ 500000 then 20
  else if budget_num ≥ 300000 then 15
  else if budget_num ≥ 200000 then 10
  else if budget_num ≥ 100000 then 5
  else 0

/-- The try block of the budget section: parse the budget value (digit
extraction for a string, `int( )` for a number) and take its tier bonus; the
ValueError path (no digit characters in the string) contributes a flat 5. -/
def budgetBonus : Option BudgetVal → Int
  | some (.str s) =>
    match digitsToNat (s.toList.filter Char.isDigit) with
    | some n => tierBonus (Int.ofNat n)
    | none => 5
  | some (.num n) => tierBonus n
  | none => 0

/-- The budget score before the final `min( , 30)` cap: 0 for a falsy budget,
else base 10 plus the parsed tier bonus. -/
def budgetScoreRaw (budget : Option BudgetVal) : Int :=
  if budgetTruthy budget then 10 + budgetBonus budget else 0

/-- `budget_score = min(budget_score, 30)`. -/
def budgetScore (budget : Option BudgetVal) : Int :=
  min (budgetScoreRaw budget) 30

def high_intent_sources : List String := ["direct", "referral", "property-listing"]

def medium_intent_sources : List String := ["google-ads", "facebook-ads"]

/-- Intent score: `lead_data.get("source", "organic")` then membership in the
two source lists. -/
def intentScore (source : Option String) : Int :=
  let src := source.getD "organic"
  if src ∈ high_intent_sources then 20
  else if src ∈ medium_intent_sources then 15
  else 10

/-- Readiness score: `lead_data.get("years_in_city", 0)` tiering plus 10 when
the enrichment reports stable employment. -/
def readinessScore (years_in_city : Option Int) (enrichment_data : Option Enrichment) : Int :=
  let years := years_in_city.getD 0
  let base : Int :=
    if years ≥ 5 then 15
    else if years ≥ 2 then 10
    else if years ≥ 1 then 5
    else 0
  let stable : Bool :=
    match enrichment_data with
    | some e => e.credit_indicators.has_stable_employment
    | none => false
  base + (if stable then 10 else 0)

structure QualificationScore where
  budget_score : Int
  intent_score : Int
  readiness_score : Int
  engagement_score : Int
  total_score : Int
  confidence : String
  reasoning : String
  strengths : List String
  concerns : List String
  recommendations : List String
  deriving DecidableEq, Repr

/-- Embedding of the calculate_qualification_score tool. -/
def calculate_qualification_score (lead_data : LeadData)
    (enrichment_data : Option Enrichment) : QualificationScore :=
  let budget_score := budgetScore lead_data.budget
  let intent_score := intentScore lead_data.source
  let readiness_score := readinessScore lead_data.years_in_city enrichment_data
  let engagement_score : Int := 20
  let total_score := budget_score + intent_score + readiness_score + engagement_score
  let confidence :=
    if enrichment_data.isSome && budgetTruthy lead_data.budget then "high" else "medium"
  let confidence :=
    if !budgetTruthy lead_data.budget && enrichment_data.isNone then "low" else confidence
  let strengths :=
    (if budget_score ≥ 20 then ["Strong budget alignment"] else []) ++
    (if intent_score ≥ 15 then ["High purchase intent from quality source"] else []) ++
    (if readiness_score ≥ 15 then ["Stable and ready to move forward"] else [])
  let concerns :=
    (if budget_score < 15 then ["Budget may be insufficient"] else []) ++
    (if !phoneTruthy lead_data.phone then ["No phone number provided"] else [])
  let recommendations :=
    if total_score ≥ 70 then
      ["Fast-track to sales team",
       "Schedule property viewing within 48 hours",
       "Assign senior sales agent"]
    else if total_score ≥ 50 then
      ["Nurture with targeted content",
       "Schedule discovery call",
       "Send market analysis report"]
    else
      ["Add to long-term nurture campaign",
       "Send educational content series",
       "Re-evaluate in 3 months"]
  let reasoning :=
    "Lead scored " ++ toString total_score ++ "/100 with " ++ confidence ++
    " confidence. " ++
    (if total_score ≥ 70 then "Highly qualified lead ready for immediate sales engagement."
     else if total_score ≥ 50 then "Moderate qualification, needs nurturing before sales."
     else "Low qualification, requires long-term nurturing.")
  { budget_score := budget_score
    intent_score := intent_score
    readiness_score := readiness_score
    engagement_score := engagement_score
    total_score := total_score
    confidence := confidence
    reasoning := reasoning
    strengths := strengths
    concerns := concerns
    recommendations := recommendations }

/-! ## Decision tool (qualification_agent.py, make_qualification_decision) -/

/-- The decision record.  The `qualified_at` field of the source is
`datetime.now().isoformat()`, an external clock read, and is omitted from the
model; every other field is carried. -/
structure Decision where
  status : String
  requires_human_review : Bool
  human_review_reason : Option String
  next_steps : List String
  qualified_by : String
  deriving DecidableEq, Repr

/-- Embedding of the make_qualification_decision tool.  The source gives
`require_human_review_threshold` the default value 65; here it is an explicit
argument. -/
def make_qualification_decision (score : QualificationScore)
    (require_human_review_threshold : Int) : Decision :=
  let status :=
    if 70 ≤ score.total_score ∧ score.confidence = "high" then "qualified"
    else if score.total_score < 40 then "not_qualified"
    else "needs_review"
  let requires_human_review : Bool :=
    decide (status = "needs_review" ∨ score.confidence = "low" ∨
      (60 ≤ score.total_score ∧ score.total_score ≤ 70) ∨
      2 < score.concerns.length)
  let human_review_reason :=
    if requires_human_review then
      if score.confidence = "low" then some "Low confidence due to insufficient data"
      else if status = "needs_review" then some "Borderline qualification score"
      else if 2 < score.concerns.length then some "Multiple concerns identified"
      else none
    else none
  let next_steps :=
    if requires_human_review then
      "Queue for human review within 4 hours" :: score.recommendations
    else score.recommendations
  { status := status
    requires_human_review := requires_human_review
    human_review_reason := human_review_reason
    next_steps := next_steps
    qualified_by := "strands-qualification-agent" }

/-! ## Lead capture flow (leadcaptureagent/app) -/

/-- The four-field record produced by the extraction adapters
(`full_name`, `email`, `phone`, `source`, all strings). -/
structure ExtractedFields where
  full_name : String
  email : String
  phone : String
  source : String
  deriving DecidableEq, Repr

/-- The whitespace class shared by Python `str.strip` and the `\s` class of
Python regular expressions (ASCII part). -/
def isPySpace (c : Char) : Bool :=
  c = ' ' || c = '\t' || c = '\n' || c = '\r' || c = '\x0b' || c = '\x0c'

/-- Python `str.strip` with no argument: remove leading and trailing
whitespace. -/
def pyStrip (s : String) : String :=
  String.mk (((s.toList.dropWhile isPySpace).reverse.dropWhile isPySpace).reverse)

def isJsonWs (c : Char) : Bool :=
  c = ' ' || c = '\n' || c = '\t' || c = '\r'

def dropWs (cs : List Char) : List Char := cs.dropWhile isJsonWs

/-- JSON string escapes (the common ones; a non-special escaped character
stands for itself). -/
def unescapeChar (c : Char) : Char :=
  if c = 'n' then '\n' else if c = 't' then '\t' else if c = 'r' then '\r' else c

/-- Parse the body of a JSON string whose opening quote was already consumed;
returns the decoded characters and the rest after the closing quote. -/
def parseQuoted : List Char → Option (List Char × List Char)
  | [] => none
  | c :: cs =>
    if c = '"' then some ([], cs)
    else if c = '\\' then
      match cs with
      | [] => none
      | e :: rest =>
        match parseQuoted rest with
        | some (s, r) => some (unescapeChar e :: s, r)
        | none => none
    else
      match parseQuoted cs with
      | some (s, r) => some (c :: s, r)
      | none => none

/-- Parse the members of a JSON object after the opening brace, consuming the
closing brace; fuelled by the input length. -/
def parseMembers : Nat → List Char → Option (List (String × String) × List Char)
  | 0, _ => none
  | fuel + 1, cs =>
    match dropWs cs with
    | '"' :: rest =>
      match parseQuoted rest with
      | none => none
      | some (key, afterKey) =>
        match dropWs afterKey with
        | ':' :: afterColon =>
          match dropWs afterColon with
          | '"' :: vrest =>
            match parseQuoted vrest with
            | none => none
            | some (val, afterVal) =>
              match dropWs afterVal with
              | ',' :: more =>
                match parseMembers fuel more with
                | some (ps, rest2) => some ((String.mk key, String.mk val) :: ps, rest2)
                | none => none
              | '\x7d' :: rest2 => some ([(String.mk key, String.mk val)], rest2)
              | _ => none
          | _ => none
        | _ => none
    | _ => none

/-- Modelled from the spec: Python `json.loads`, the standard-library
collaborator of app/llm.py, restricted to flat JSON objects with string keys
and string values (the only payload shape the extraction adapters consume;
any other input is a parse failure).  `none` models a raised
json.JSONDecodeError.  The member list is reversed so that a front-first
lookup sees the last binding of a duplicated key, as a Python dict does. -/
def json_loads (s : String) : Option (List (String × String)) :=
  match dropWs s.toList with
  | '\x7b' :: rest =>
    match dropWs rest with
    | '\x7d' :: tail => if (dropWs tail).isEmpty then some [] else none
    | _ =>
      match parseMembers (rest.length + 1) rest with
      | some (ps, tail) => if (dropWs tail).isEmpty then some ps.reverse else none
      | none => none
  | _ => none

/-- The field defaulting applied to the parsed object by both adapters:
each field is `(data.get(key) or "").strip()`, and `source` is
`(data.get("source") or "manual").strip() or "manual"`. -/
def fieldsOfData (data : List (String × String)) : ExtractedFields :=
  { full_name := pyStrip ((data.lookup "full_name").getD "")
    email := pyStrip ((data.lookup "email").getD "")
    phone := pyStrip ((data.lookup "phone").getD "")
    source :=
      let s :=
        pyStrip
          (match data.lookup "source" with
           | some v => if v = "" then "manual" else v
           | none => "manual")
      if s = "" then "manual" else s }

/-- `re.search` of the greedy brace pattern used by the retry path of
app/llm.py: the match runs from the first opening brace to the last closing
brace of the content, provided the latter comes after the former. -/
def braceBlock (s : String) : Option String :=
  let cs := s.toList
  match cs.findIdx? (fun c => c = '\x7b'), cs.reverse.findIdx? (fun c => c = '\x7d') with
  | some i, some jr =>
    let j := cs.length - 1 - jr
    if i < j then some (String.mk ((cs.drop i).take (j - i + 1))) else none
  | _, _ => none

/-- The retry path of LLMClient.extract_lead_fields: one further
chat-completion call without strict-JSON response_format; a raised exception
from that call, or a matched brace block that fails to parse, becomes the
RuntimeError raised to the caller; a response with no brace block yields
`data = dict()` and hence the default-empty field record.  The second
component counts the upstream calls made (this path is always the second). -/
def extractRetry (retryCall : Except Unit String) :
    Except String ExtractedFields × Nat :=
  match retryCall with
  | .error _ => (.error "LLM extraction failed", 2)
  | .ok content =>
    match braceBlock content with
    | some blk =>
      match json_loads blk with
      | some data => (.ok (fieldsOfData data), 2)
      | none => (.error "LLM extraction failed", 2)
    | none => (.ok (fieldsOfData []), 2)

/-- Embedding of LLMClient.extract_lead_fields (app/llm.py).  The outcome of
each upstream chat-completion call is an explicit parameter: `.error` models
a raised exception (transport error or provider rejecting the strict-JSON
response_format), `.ok` the returned message content.  The first try block
covers both the strict-JSON call and `json.loads` on its content; any
exception there falls into the retry path.  The second component counts the
upstream calls made. -/
def extract_lead_fields (strictCall retryCall : Except Unit String) :
    Except String ExtractedFields × Nat :=
  match strictCall with
  | .ok content =>
    match json_loads content with
    | some data => (.ok (fieldsOfData data), 1)
    | none => extractRetry retryCall
  | .error _ => extractRetry retryCall

/-- The Lead record of app/models.py.  The `id` field is a `uuid4()` draw,
external randomness, and is omitted from the model. -/
structure Lead where
  full_name : String
  email : String
  phone : String
  source : String
  deriving DecidableEq, Repr

/-- Python `str.lower`, restricted to ASCII case mapping. -/
def pyLower (s : String) : String := String.mk (s.toList.map Char.toLower)

/-- LeadCaptureAgent._normalize_email: `(email or "").strip().lower()`. -/
def normalize_email (email : String) : String := pyLower (pyStrip email)

/-- LeadCaptureAgent._is_valid_email: full-string match of the pattern
anchored local-part `@` domain, where the local part is one or more
characters that are neither `@` nor whitespace, and the domain part contains
a dot with at least one such character before and after it.  Equivalently:
exactly one `@` splitting the string into two whitespace-free parts, the
first nonempty, the second containing a dot that is neither its first nor
its last character. -/
def is_valid_email (email : String) : Bool :=
  match splitChar '@' email.toList with
  | [a, b] =>
    (!a.isEmpty) && a.all (fun c => !isPySpace c) && b.all (fun c => !isPySpace c) &&
      ((b.drop 1).dropLast.contains '.')
  | _ => false

/-- Embedding of LeadCaptureAgent.capture downstream of the extraction
adapter: field normalization, email validation and Lead construction.  The
store append and the fire-and-forget print are side effects outside the
returned value and are not modelled. -/
def capture (extracted : ExtractedFields) : Lead :=
  let full_name := pyStrip extracted.full_name
  let source :=
    let s := pyStrip (if extracted.source = "" then "manual" else extracted.source)
    if s = "" then "manual" else s
  let email0 := normalize_email extracted.email
  let phone := String.mk (extracted.phone.toList.filter Char.isDigit)
  let email := if ¬email0 = "" ∧ is_valid_email email0 = false then "" else email0
  { full_name := full_name
    email := email
    phone := phone
    source := source }

/-! ## Helper lemmas about the scorer -/

theorem tierBonus_nonneg (n : Int) : 0 ≤ tierBonus n := by
  unfold tierBonus
  split_ifs <;> norm_num

theorem tierBonus_le (n : Int) : tierBonus n ≤ 20 := by
  unfold tierBonus
  split_ifs <;> norm_num

theorem budgetBonus_nonneg (b : Option BudgetVal) : 0 ≤ budgetBonus b := by
  match b with
  | none => norm_num [budgetBonus]
  | some (.num n) => simpa only [budgetBonus] using tierBonus_nonneg n
  | some (.str s) =>
    simp only [budgetBonus]
    split
    · exact tierBonus_nonneg _
    · norm_num

theorem budgetBonus_le (b : Option BudgetVal) : budgetBonus b ≤ 20 := by
  match b with
  | none => norm_num [budgetBonus]
  | some (.num n) => simpa only [budgetBonus] using tierBonus_le n
  | some (.str s) =>
    simp only [budgetBonus]
    split
    · exact tierBonus_le _
    · norm_num

theorem budgetScoreRaw_nonneg (b : Option BudgetVal) : 0 ≤ budgetScoreRaw b := by
  unfold budgetScoreRaw
  split_ifs with h
  · have := budgetBonus_nonneg b
    omega
  · norm_num

theorem budgetScore_bounds (b : Option BudgetVal) :
    0 ≤ budgetScore b ∧ budgetScore b ≤ 30 := by
  refine ⟨le_min (budgetScoreRaw_nonneg b) (by norm_num), min_le_right _ _⟩

theorem budgetScore_of_falsy (b : Option BudgetVal) (h : budgetTruthy b = false) :
    budgetScore b = 0 := by
  unfold budgetScore budgetScoreRaw
  rw [h]
  norm_num

theorem intentScore_bounds (s : Option String) :
    10 ≤ intentScore s ∧ intentScore s ≤ 20 := by
  simp only [intentScore]
  split_ifs <;> norm_num

theorem readinessScore_bounds (y : Option Int) (e : Option Enrichment) :
    0 ≤ readinessScore y e ∧ readinessScore y e ≤ 25 := by
  unfold readinessScore
  cases e <;> dsimp only [] <;> split_ifs <;> norm_num

/-- Projection equations of the scorer (all definitional). -/
theorem calc_budget_eq (lead : LeadData) (enr : Option Enrichment) :
    (calculate_qualification_score lead enr).budget_score = budgetScore lead.budget := rfl

theorem calc_intent_eq (lead : LeadData) (enr : Option Enrichment) :
    (calculate_qualification_score lead enr).intent_score = intentScore lead.source := rfl

theorem calc_readiness_eq (lead : LeadData) (enr : Option Enrichment) :
    (calculate_qualification_score lead enr).readiness_score =
      readinessScore lead.years_in_city enr := rfl

theorem calc_engagement_eq (lead : LeadData) (enr : Option Enrichment) :
    (calculate_qualification_score lead enr).engagement_score = 20 := rfl

theorem calc_total_eq (lead : LeadData) (enr : Option Enrichment) :
    (calculate_qualification_score lead enr).total_score =
      budgetScore lead.budget + intentScore lead.source +
        readinessScore lead.years_in_city enr + 20 := rfl

theorem calc_confidence_eq (lead : LeadData) (enr : Option Enrichment) :
    (calculate_qualification_score lead enr).confidence =
      (if !budgetTruthy lead.budget && enr.isNone then "low"
       else if enr.isSome && budgetTruthy lead.budget then "high" else "medium") := rfl

/-- Projection equations of the decision tool (all definitional). -/
theorem decision_status_eq (s : QualificationScore) (t : Int) :
    (make_qualification_decision s t).status =
      (if 70 ≤ s.total_score ∧ s.confidence = "high" then "qualified"
       else if s.total_score < 40 then "not_qualified"
       else "needs_review") := rfl

theorem decision_review_eq (s : QualificationScore) (t : Int) :
    (make_qualification_decision s t).requires_human_review =
      decide ((make_qualification_decision s t).status = "needs_review" ∨
        s.confidence = "low" ∨ (60 ≤ s.total_score ∧ s.total_score ≤ 70) ∨
        2 < s.concerns.length) := rfl

theorem status_eq_qualified_iff (s : QualificationScore) (t : Int) :
    (make_qualification_decision s t).status = "qualified" ↔
      70 ≤ s.total_score ∧ s.confidence = "high" := by
  rw [decision_status_eq]
  split_ifs with h1 h2
  · exact ⟨fun _ => h1, fun _ => rfl⟩
  · exact ⟨fun h => absurd h (by decide), fun h => absurd h h1⟩
  · exact ⟨fun h => absurd h (by decide), fun h => absurd h h1⟩

theorem status_eq_not_qualified_iff (s : QualificationScore) (t : Int) :
    (make_qualification_decision s t).status = "not_qualified" ↔
      s.total_score < 40 := by
  rw [decision_status_eq]
  split_ifs with h1 h2
  · exact ⟨fun h => absurd h (by decide), fun h40 => absurd h1.1 (by omega)⟩
  · exact ⟨fun _ => h2, fun _ => rfl⟩
  · exact ⟨fun h => absurd h (by decide), fun h => absurd h h2⟩

theorem status_eq_needs_review_iff (s : QualificationScore) (t : Int) :
    (make_qualification_decision s t).status = "needs_review" ↔
      ¬(70 ≤ s.total_score ∧ s.confidence = "high") ∧ ¬(s.total_score < 40) := by
  rw [decision_status_eq]
  split_ifs with h1 h2
  · exact ⟨fun h => absurd h (by decide), fun h => absurd h1 h.1⟩
  · exact ⟨fun h => absurd h (by decide), fun h => absurd h2 h.2⟩
  · exact ⟨fun _ => ⟨h1, h2⟩, fun _ => rfl⟩

/-! ## Claim theorems -/

/-- C1: for every QualificationScore input, make_qualification_decision
returns status "qualified" iff total_score is at least 70 and confidence is
"high"; returns "not_qualified" iff total_score is below 40; and returns
"needs_review" in exactly the remaining cases — so the three status outcomes
are mutually exclusive and exhaustive. -/
theorem c1_decision_status_partition (s : QualificationScore) (t : Int) :
    ((make_qualification_decision s t).status = "qualified" ↔
      70 ≤ s.total_score ∧ s.confidence = "high") ∧
    ((make_qualification_decision s t).status = "not_qualified" ↔
      s.total_score < 40) ∧
    ((make_qualification_decision s t).status = "needs_review" ↔
      ¬(70 ≤ s.total_score ∧ s.confidence = "high") ∧ ¬(s.total_score < 40)) ∧
    ((make_qualification_decision s t).status = "qualified" ∨
      (make_qualification_decision s t).status = "not_qualified" ∨
      (make_qualification_decision s t).status = "needs_review") := by
  refine ⟨status_eq_qualified_iff s t, status_eq_not_qualified_iff s t,
    status_eq_needs_review_iff s t, ?_⟩
  by_cases h1 : 70 ≤ s.total_score ∧ s.confidence = "high"
  · exact Or.inl ((status_eq_qualified_iff s t).mpr h1)
  · by_cases h2 : s.total_score < 40
    · exact Or.inr (Or.inl ((status_eq_not_qualified_iff s t).mpr h2))
    · exact Or.inr (Or.inr ((status_eq_needs_review_iff s t).mpr ⟨h1, h2⟩))

/-- C1 witness: a concrete high-confidence score of 80 is decided
"qualified". -/
theorem c1_decision_status_partition_witness :
    (make_qualification_decision
      { budget_score := 30, intent_score := 20, readiness_score := 10,
        engagement_score := 20, total_score := 80, confidence := "high",
        reasoning := "", strengths := [], concerns := [],
        recommendations := [] } 65).status = "qualified" :=
  (c1_decision_status_partition
    { budget_score := 30, intent_score := 20, readiness_score := 10,
      engagement_score := 20, total_score := 80, confidence := "high",
      reasoning := "", strengths := [], concerns := [],
      recommendations := [] } 65).1.mpr ⟨by norm_num, rfl⟩

/-- C3: for every QualificationScore input, requires_human_review is true
exactly when the status is "needs_review", or confidence is "low", or the
total score lies in the closed interval from 60 to 70, or the concerns list
has more than 2 entries; in particular it is true whenever confidence is
"low", regardless of the score. -/
theorem c3_human_review_rule (s : QualificationScore) (t : Int) :
    ((make_qualification_decision s t).requires_human_review = true ↔
      ((make_qualification_decision s t).status = "needs_review" ∨
        s.confidence = "low" ∨
        (60 ≤ s.total_score ∧ s.total_score ≤ 70) ∨
        2 < s.concerns.length)) ∧
    (s.confidence = "low" →
      (make_qualification_decision s t).requires_human_review = true) := by
  constructor
  · rw [decision_review_eq, decide_eq_true_eq]
  · intro h
    rw [decision_review_eq, decide_eq_true_eq]
    exact Or.inr (Or.inl h)

/-- C3 witness: a concrete low-confidence score is flagged for human review. -/
theorem c3_human_review_rule_witness :
    (make_qualification_decision
      { budget_score := 0, intent_score := 10, readiness_score := 0,
        engagement_score := 20, total_score := 30, confidence := "low",
        reasoning := "", strengths := [], concerns := [],
        recommendations := [] } 65).requires_human_review = true :=
  (c3_human_review_rule
    { budget_score := 0, intent_score := 10, readiness_score := 0,
      engagement_score := 20, total_score := 30, confidence := "low",
      reasoning := "", strengths := [], concerns := [],
      recommendations := [] } 65).2 rfl

/-- C9: the require_human_review_threshold parameter is accepted but has no
influence on make_qualification_decision: any two threshold values produce
identical decisions (the omitted timestamp field aside). -/
theorem c9_threshold_unused (s : QualificationScore) (t1 t2 : Int) :
    make_qualification_decision s t1 = make_qualification_decision s t2 := rfl

/-- C10: for every lead_data and enrichment_data input the total score is at
least 30 — intent is at least 10 for every source (including an absent one)
and engagement is fixed at 20 — so totals below 30 are unreachable, and a
"not_qualified" decision can only arise for totals between 30 and 39. -/
theorem c10_total_floor (lead : LeadData) (enr : Option Enrichment) (t : Int) :
    30 ≤ (calculate_qualification_score lead enr).total_score ∧
    10 ≤ (calculate_qualification_score lead enr).intent_score ∧
    (calculate_qualification_score lead enr).engagement_score = 20 ∧
    ((make_qualification_decision (calculate_qualification_score lead enr) t).status =
        "not_qualified" →
      30 ≤ (calculate_qualification_score lead enr).total_score ∧
      (calculate_qualification_score lead enr).total_score < 40) := by
  have hb := budgetScore_bounds lead.budget
  have hi := intentScore_bounds lead.source
  have hr := readinessScore_bounds lead.years_in_city enr
  have htot : 30 ≤ (calculate_qualification_score lead enr).total_score := by
    rw [calc_total_eq]
    omega
  refine ⟨htot, ?_, calc_engagement_eq lead enr, ?_⟩
  · rw [calc_intent_eq]
    exact hi.1
  · intro hst
    exact ⟨htot,
      (status_eq_not_qualified_iff (calculate_qualification_score lead enr) t).mp hst⟩

/-- C10 witness: a lead with no data at all scores exactly 30 and is decided
"not_qualified", inside the 30 to 39 band. -/
theorem c10_total_floor_witness :
    (make_qualification_decision
        (calculate_qualification_score
          { budget := none, source := none, years_in_city := none, phone := none }
          none) 65).status = "not_qualified" ∧
    30 ≤ (calculate_qualification_score
        { budget := none, source := none, years_in_city := none, phone := none }
        none).total_score ∧
    (calculate_qualification_score
        { budget := none, source := none, years_in_city := none, phone := none }
        none).total_score < 40 := by
  have hst : (make_qualification_decision
      (calculate_qualification_score
        { budget := none, source := none, years_in_city := none, phone := none }
        none) 65).status = "not_qualified" := by decide
  exact ⟨hst,
    (c10_total_floor
      { budget := none, source := none, years_in_city := none, phone := none }
      none 65).2.2.2 hst⟩

/-- C2 counterexample: a lead whose budget key is present but holds the empty
string is assigned confidence "low" together with absent enrichment, although
the claim allows "low" only when the budget field is absent. -/
theorem c2_counterexample :
    (calculate_qualification_score
        { budget := some (.str ""), source := none, years_in_city := none,
          phone := none } none).confidence = "low" ∧
    ({ budget := some (.str ""), source := none, years_in_city := none,
        phone := none } : LeadData).budget ≠ none := by
  exact ⟨rfl, by simp⟩

/-- C2 (amended): every sub-score respects its documented bounds
(budget 0 to 30, intent 0 to 25, readiness 0 to 25, engagement fixed at 20),
the total is the plain unclamped sum of the four and lies in 0 to 100, and
confidence is "low" exactly when the budget field is absent or falsy (empty
string or zero) and the enrichment data is absent. -/
theorem c2_score_invariants (lead : LeadData) (enr : Option Enrichment) :
    (0 ≤ (calculate_qualification_score lead enr).budget_score ∧
      (calculate_qualification_score lead enr).budget_score ≤ 30) ∧
    (0 ≤ (calculate_qualification_score lead enr).intent_score ∧
      (calculate_qualification_score lead enr).intent_score ≤ 25) ∧
    (0 ≤ (calculate_qualification_score lead enr).readiness_score ∧
      (calculate_qualification_score lead enr).readiness_score ≤ 25) ∧
    (calculate_qualification_score lead enr).engagement_score = 20 ∧
    ((calculate_qualification_score lead enr).total_score =
      (calculate_qualification_score lead enr).budget_score +
        (calculate_qualification_score lead enr).intent_score +
        (calculate_qualification_score lead enr).readiness_score +
        (calculate_qualification_score lead enr).engagement_score) ∧
    (0 ≤ (calculate_qualification_score lead enr).total_score ∧
      (calculate_qualification_score lead enr).total_score ≤ 100) ∧
    ((calculate_qualification_score lead enr).confidence = "low" ↔
      (budgetTruthy lead.budget = false ∧ enr = none)) := by
  have hb := budgetScore_bounds lead.budget
  have hi := intentScore_bounds lead.source
  have hr := readinessScore_bounds lead.years_in_city enr
  refine ⟨⟨by rw [calc_budget_eq]; exact hb.1, by rw [calc_budget_eq]; exact hb.2⟩,
    ⟨by rw [calc_intent_eq]; omega, by rw [calc_intent_eq]; omega⟩,
    ⟨by rw [calc_readiness_eq]; exact hr.1, by rw [calc_readiness_eq]; exact hr.2⟩,
    calc_engagement_eq lead enr, rfl,
    ⟨by rw [calc_total_eq]; omega, by rw [calc_total_eq]; omega⟩, ?_⟩
  rw [calc_confidence_eq]
  cases hbt : budgetTruthy lead.budget <;> cases enr <;> simp [hbt]

/-- C2 witness: a lead with no budget and no enrichment is assigned
confidence "low". -/
theorem c2_score_invariants_witness :
    (calculate_qualification_score
      { budget := none, source := some "direct", years_in_city := some 3,
        phone := some "5551234" } none).confidence = "low" :=
  (c2_score_invariants
    { budget := none, source := some "direct", years_in_city := some 3,
      phone := some "5551234" } none).2.2.2.2.2.2.mpr ⟨rfl, rfl⟩

/-- Spec-side definition of the budget sub-score, following the words of the
amended C4: 0 when the budget field is absent or falsy (empty string or
numeric zero); otherwise 10 plus the tier bonus of the integer formed from
the digit characters of the value (a flat 5 when no integer can be parsed),
capped at 30.  To be compared with the source embedding. -/
def budgetScoreSpec : Option BudgetVal → Int
  | none => 0
  | some (.str s) =>
    if s = "" then 0
    else
      match digitsToNat (s.toList.filter Char.isDigit) with
      | some n => min (10 + tierBonus (Int.ofNat n)) 30
      | none => min (10 + 5) 30
  | some (.num n) => if n = 0 then 0 else min (10 + tierBonus n) 30

/-- C4 counterexample: a lead whose budget key is present but holds the empty
string gets budget score 0, not the base-plus-parse-failure value
min(10 + 5, 30) = 15 that the claim assigns to every present budget. -/
theorem c4_counterexample :
    ({ budget := some (.str ""), source := none, years_in_city := none,
        phone := none } : LeadData).budget.isSome = true ∧
    (calculate_qualification_score
        { budget := some (.str ""), source := none, years_in_city := none,
          phone := none } none).budget_score = 0 ∧
    ¬(calculate_qualification_score
        { budget := some (.str ""), source := none, years_in_city := none,
          phone := none } none).budget_score = min (10 + 5 : Int) 30 := by
  refine ⟨rfl, rfl, ?_⟩
  intro h
  rw [show (calculate_qualification_score
      { budget := some (.str ""), source := none, years_in_city := none,
        phone := none } none).budget_score = 0 from rfl] at h
  norm_num at h

/-- C4 (amended): the budget sub-score is 0 when the budget field is absent
or falsy (empty string or numeric zero), and otherwise equals 10 plus the
tier bonus determined by the integer formed from the digit characters of the
budget value (a flat 5 when no integer can be parsed), capped at 30; in
particular every budget string whose digits spell 450000 yields budget
score 25. -/
theorem c4_budget_score (lead : LeadData) (enr : Option Enrichment) :
    ((calculate_qualification_score lead enr).budget_score =
      budgetScoreSpec lead.budget) ∧
    (∀ s : String, lead.budget = some (.str s) →
      digitsToNat (s.toList.filter Char.isDigit) = some 450000 →
      (calculate_qualification_score lead enr).budget_score = 25) := by
  have hmain : (calculate_qualification_score lead enr).budget_score =
      budgetScoreSpec lead.budget := by
    rw [calc_budget_eq]
    unfold budgetScore budgetScoreRaw
    match hb : lead.budget with
    | none => simp [budgetTruthy, budgetBonus, budgetScoreSpec]
    | some (.num n) =>
      by_cases hn : n = 0
      · simp [budgetTruthy, hn, budgetScoreSpec]
      · simp [budgetTruthy, hn, budgetScoreSpec, budgetBonus]
    | some (.str s) =>
      by_cases hs : s = ""
      · simp [budgetTruthy, hs, budgetScoreSpec]
      · simp only [budgetTruthy, hs, budgetScoreSpec, budgetBonus,
          if_neg hs, beq_iff_eq, Bool.not_eq_true]
        rw [if_pos (by simp [hs])]
        split <;> rfl
  refine ⟨hmain, ?_⟩
  intro s hbudget hdigits
  rw [hmain, hbudget]
  have hs : ¬s = "" := by
    intro hempty
    rw [hempty] at hdigits
    simp [digitsToNat] at hdigits
  simp only [budgetScoreSpec, if_neg hs, hdigits]
  norm_num [tierBonus]

/-- C4 witness: the currency-formatted budget string of the repository test-suite
high-quality test lead parses to 450000 and scores 25. -/
theorem c4_budget_score_witness :
    (calculate_qualification_score
        { budget := some (.str "$450,000"), source := none,
          years_in_city := none, phone := none } none).budget_score = 25 :=
  (c4_budget_score
    { budget := some (.str "$450,000"), source := none,
      years_in_city := none, phone := none } none).2 "$450,000" rfl (by decide)

/-- C6 counterexample: for the documented scenario (gmail address, budget
"$50,000", source "organic", enrichment computed by enrich_lead) the code
assigns confidence "high" — both a budget value and an enrichment result are
present — not the "medium" the claim states. -/
theorem c6_counterexample :
    (calculate_qualification_score
        { budget := some (.str "$50,000"), source := some "organic",
          years_in_city := none, phone := none }
        (enrich_lead ("test@gmail.com".toList))).confidence ≠ "medium" := by
  decide

/-- C6 (amended): for the scenario LeadInput(email "test@gmail.com", budget
"$50,000", source "organic") with enrichment computed by enrich_lead, the
scorer returns budget 10, intent 10, readiness 0, engagement 20, total 40 and
confidence "high" (budget and enrichment both present), and the decision on
that score is "needs_review". -/
theorem c6_gmail_scenario :
    (calculate_qualification_score
        { budget := some (.str "$50,000"), source := some "organic",
          years_in_city := none, phone := none }
        (enrich_lead ("test@gmail.com".toList))).budget_score = 10 ∧
    (calculate_qualification_score
        { budget := some (.str "$50,000"), source := some "organic",
          years_in_city := none, phone := none }
        (enrich_lead ("test@gmail.com".toList))).intent_score = 10 ∧
    (calculate_qualification_score
        { budget := some (.str "$50,000"), source := some "organic",
          years_in_city := none, phone := none }
        (enrich_lead ("test@gmail.com".toList))).readiness_score = 0 ∧
    (calculate_qualification_score
        { budget := some (.str "$50,000"), source := some "organic",
          years_in_city := none, phone := none }
        (enrich_lead ("test@gmail.com".toList))).engagement_score = 20 ∧
    (calculate_qualification_score
        { budget := some (.str "$50,000"), source := some "organic",
          years_in_city := none, phone := none }
        (enrich_lead ("test@gmail.com".toList))).total_score = 40 ∧
    (calculate_qualification_score
        { budget := some (.str "$50,000"), source := some "organic",
          years_in_city := none, phone := none }
        (enrich_lead ("test@gmail.com".toList))).confidence = "high" ∧
    (make_qualification_decision
        (calculate_qualification_score
          { budget := some (.str "$50,000"), source := some "organic",
            years_in_city := none, phone := none }
          (enrich_lead ("test@gmail.com".toList))) 65).status = "needs_review" := by
  decide

/-- For a well-formed email assembled from an at-free local part and an
at-free domain, enrich_lead succeeds and its corporate flag and company block
are determined by membership of the domain in the consumer-webmail list. -/
theorem enrich_lead_characterization (l d : List Char) (hl : '@' ∉ l) (hd : '@' ∉ d) :
    ∃ r, enrich_lead (l ++ '@' :: d) = some r ∧
      r.is_corporate_email = decide (d ∉ consumerDomains) ∧
      r.company_info =
        (if decide (d ∉ consumerDomains) = true then some (companyInfoOf d)
         else none) := by
  have hsplit : splitChar '@' (l ++ '@' :: d) = l :: [d] := by
    rw [splitChar_append '@' l d hl, splitChar_no_sep '@' d hd]
  have henr : enrich_lead (l ++ '@' :: d) =
      some
        { email := l ++ '@' :: d
          is_corporate_email := decide (d ∉ consumerDomains)
          estimated_income :=
            if decide (d ∉ consumerDomains) then "$75,000-$125,000"
            else "$50,000-$100,000"
          credit_indicators :=
            { has_stable_employment := decide (d ∉ consumerDomains)
              likely_homeowner := false }
          company_info :=
            if decide (d ∉ consumerDomains) then some (companyInfoOf d) else none
          linkedin_profile :=
            if decide (d ∉ consumerDomains) then
              some ("https://linkedin.com/in/".toList ++ l)
            else none } := by
    unfold enrich_lead
    rw [hsplit]
  exact ⟨_, henr, rfl, rfl⟩

/-- C5 counterexample: the consumer-webmail exclusion list of the code has four
entries, so no five-element set of at-free consumer-webmail domains can
characterize the corporate classification: any such set contains a domain
outside the four of the code, which the code classifies as corporate even though
the claimed equivalence would demand otherwise. -/
theorem c5_counterexample :
    ¬∃ S : Finset (List Char), S.card = 5 ∧ (∀ d ∈ S, '@' ∉ d) ∧
      (∀ l d : List Char, '@' ∉ l → '@' ∉ d →
        ∃ r, enrich_lead (l ++ '@' :: d) = some r ∧
          (r.is_corporate_email = true ↔ d ∉ S)) := by
  rintro ⟨S, hcard, hdom, hiff⟩
  have hsub : ¬S ⊆ ({"gmail.com".toList, "yahoo.com".toList, "hotmail.com".toList,
      "outlook.com".toList} : Finset (List Char)) := by
    intro hs
    have h4 : ({"gmail.com".toList, "yahoo.com".toList, "hotmail.com".toList,
        "outlook.com".toList} : Finset (List Char)).card ≤ 4 := by
      apply le_trans (Finset.card_insert_le _ _)
      have := Finset.card_insert_le ("yahoo.com".toList)
        ({"hotmail.com".toList, "outlook.com".toList} : Finset (List Char))
      have := Finset.card_insert_le ("hotmail.com".toList)
        ({"outlook.com".toList} : Finset (List Char))
      simp only [Finset.card_singleton] at *
      omega
    have := Finset.card_le_card hs
    omega
  obtain ⟨x, hxS, hxF⟩ := Finset.not_subset.mp hsub
  have hxd : '@' ∉ x := hdom x hxS
  have hxcons : x ∉ consumerDomains := by
    intro hmem
    apply hxF
    simp only [consumerDomains, List.mem_cons, List.not_mem_nil, or_false] at hmem
    simp only [Finset.mem_insert, Finset.mem_singleton]
    tauto
  obtain ⟨r, hr, hiffx⟩ := hiff ['u'] x (by decide) hxd
  obtain ⟨r2, hr2, hcorp, _⟩ := enrich_lead_characterization ['u'] x (by decide) hxd
  rw [hr] at hr2
  rw [Option.some.inj hr2] at hiffx
  rw [hcorp] at hiffx
  exact (hiffx.mp (decide_eq_true hxcons)) hxS

/-- C5 (amended): for every email of the form local@domain (neither part
containing an at sign), enrich_lead classifies the lead as corporate exactly
when the domain is not in the fixed set of FOUR consumer-webmail domains
(gmail.com, yahoo.com, hotmail.com, outlook.com); for every corporate domain
the result includes a company_info block whose name is the dot-separated label of the domain, title-cased. -/
theorem c5_corporate_classification (l d : List Char) (hl : '@' ∉ l) (hd : '@' ∉ d) :
    ∃ r, enrich_lead (l ++ '@' :: d) = some r ∧
      (r.is_corporate_email = true ↔ d ∉ consumerDomains) ∧
      (d ∉ consumerDomains → r.company_info = some (companyInfoOf d)) ∧
      consumerDomains.length = 4 := by
  obtain ⟨r, hr, hcorp, hci⟩ := enrich_lead_characterization l d hl hd
  refine ⟨r, hr, ?_, ?_, by decide⟩
  · rw [hcorp]
    exact decide_eq_true_iff
  · intro hnot
    rw [hci, if_pos (decide_eq_true hnot)]

/-- C5 witness: enrichment of the repository test-suite corporate test address
sets the corporate flag and the title-cased company name "Techstartup". -/
theorem c5_corporate_classification_witness :
    ∃ r, enrich_lead ("sarah.johnson@techstartup.com".toList) = some r ∧
      r.is_corporate_email = true ∧
      r.company_info =
        some { name := "Techstartup", industry := "Technology", size := "100-500" } := by
  have heq : "sarah.johnson@techstartup.com".toList =
      "sarah.johnson".toList ++ '@' :: "techstartup.com".toList := by decide
  obtain ⟨r, hr, hiff, hci, _⟩ :=
    c5_corporate_classification ("sarah.johnson".toList) ("techstartup.com".toList)
      (by decide) (by decide)
  have hnot : ("techstartup.com".toList) ∉ consumerDomains := by decide
  refine ⟨r, by rw [heq]; exact hr, hiff.mpr hnot, ?_⟩
  rw [hci hnot]
  decide

/-- C7 counterexample: a retry response with no brace block is unparseable —
json.loads fails on it and the brace pattern finds nothing — yet the adapter
returns the default-empty field record with exit status ok instead of failing
with an extraction error. -/
theorem c7_counterexample :
    json_loads "The user gave no details." = none ∧
    braceBlock "The user gave no details." = none ∧
    (extract_lead_fields (.error ()) (.ok "The user gave no details.")).1 =
      .ok { full_name := "", email := "", phone := "", source := "manual" } := by
  exact ⟨rfl, rfl, rfl⟩

/-- C7 (amended): when the strict-JSON call fails, the adapter retries
exactly once without strict-JSON mode (two upstream calls in total) and
pattern-matches a brace-delimited block of the retry response; if the retry
call itself errors, or a matched block fails to parse, extraction fails with
an error surfaced to the caller; but a retry response containing no
brace-delimited block yields the silently empty field record instead of an
error. -/
theorem c7_retry_behavior (retryCall : Except Unit String) :
    ((extract_lead_fields (.error ()) retryCall).2 = 2) ∧
    (retryCall = .error () →
      (extract_lead_fields (.error ()) retryCall).1 =
        .error "LLM extraction failed") ∧
    (∀ content, retryCall = .ok content → braceBlock content = none →
      (extract_lead_fields (.error ()) retryCall).1 = .ok (fieldsOfData [])) ∧
    (∀ content blk, retryCall = .ok content → braceBlock content = some blk →
      json_loads blk = none →
      (extract_lead_fields (.error ()) retryCall).1 =
        .error "LLM extraction failed") ∧
    (∀ content blk data, retryCall = .ok content → braceBlock content = some blk →
      json_loads blk = some data →
      (extract_lead_fields (.error ()) retryCall).1 = .ok (fieldsOfData data)) := by
  refine ⟨?_, ?_, ?_, ?_, ?_⟩
  · show (extractRetry retryCall).2 = 2
    unfold extractRetry
    split
    · rfl
    · split
      · split <;> rfl
      · rfl
  · intro h
    subst h
    rfl
  · intro content h hb
    subst h
    show (extractRetry (.ok content)).1 = _
    simp only [extractRetry, hb]
  · intro content blk h hb hj
    subst h
    show (extractRetry (.ok content)).1 = _
    simp only [extractRetry, hb, hj]
  · intro content blk data h hb hj
    subst h
    show (extractRetry (.ok content)).1 = _
    simp only [extractRetry, hb, hj]

/-- C7 witness: a concrete brace-free retry response makes exactly two
upstream calls and returns the empty field record. -/
theorem c7_retry_behavior_witness :
    (extract_lead_fields (.error ()) (.ok "no structured output")).2 = 2 ∧
    (extract_lead_fields (.error ()) (.ok "no structured output")).1 =
      .ok (fieldsOfData []) := by
  have h := c7_retry_behavior (.ok "no structured output")
  exact ⟨h.1, h.2.2.1 "no structured output" rfl (by decide)⟩

/-- C8: for every extraction result, the capture flow returns a Lead whose
email is the trimmed lower-cased input when that matches the validation
shape and the empty string otherwise (a malformed email is replaced with the
empty string, never failing the request), and whose phone consists of
exactly the digit characters of the extracted phone. -/
theorem c8_capture_normalization (extracted : ExtractedFields) :
    ((capture extracted).email =
      (if is_valid_email (normalize_email extracted.email) = true then
        normalize_email extracted.email
       else "")) ∧
    ((capture extracted).phone =
      String.mk (extracted.phone.toList.filter Char.isDigit)) ∧
    ((capture extracted).email = "" ∨
      is_valid_email ((capture extracted).email) = true) := by
  have hemail : (capture extracted).email =
      (if ¬normalize_email extracted.email = "" ∧
          is_valid_email (normalize_email extracted.email) = false then ""
       else normalize_email extracted.email) := rfl
  have hvempty : is_valid_email "" = false := by decide
  refine ⟨?_, rfl, ?_⟩
  · rw [hemail]
    by_cases h0 : normalize_email extracted.email = ""
    · rw [h0]
      simp [hvempty]
    · by_cases hv : is_valid_email (normalize_email extracted.email) = true
      · simp [h0, hv]
      · simp only [Bool.not_eq_true] at hv
        simp [h0, hv]
  · rw [hemail]
    by_cases h0 : normalize_email extracted.email = ""
    · left
      simp [h0]
    · by_cases hv : is_valid_email (normalize_email extracted.email) = true
      · right
        simp [h0, hv]
      · left
        simp only [Bool.not_eq_true] at hv
        simp [h0, hv]

/-- C8 witness: a concrete mixed-case padded email is trimmed, lower-cased
and kept, and the phone keeps exactly its digits. -/
theorem c8_capture_normalization_witness :
    (capture { full_name := "", email := " A@B.Co ", phone := "+1-555", source := "" }).email = "a@b.co" ∧
    (capture { full_name := "", email := " A@B.Co ", phone := "+1-555", source := "" }).phone = "1555" := by
  have h := (c8_capture_normalization { full_name := "", email := " A@B.Co ", phone := "+1-555", source := "" }).1
  have hp := (c8_capture_normalization { full_name := "", email := " A@B.Co ", phone := "+1-555", source := "" }).2.1
  constructor
  · rw [h]
    decide
  · rw [hp]
    decide

end LeadAgents
